import Mathlib

/-!
Verification of the CoreService streaming relay (m365-to-aifoundry-e2e).

The Python source in src/CoreService is embedded shallowly:
strings are Lean strings (lists of characters), the in-memory session
store is an association list, and the streaming relay
AIFClient.generate_response is a pure function from a backend behaviour
description (thread id assigned, chunks produced, optional raised
failure) and a store state to the list of produced stream events, the
resulting store, and a trace of the backend calls made.
-/

/-- Splitting a character list on the newline character, mirroring the
Python expression data.split of the newline separator: empty pieces are
kept and the empty input yields one empty piece. -/
def splitNl : List Char → List (List Char)
  | [] => [[]]
  | c :: cs =>
    if c = '\n' then [] :: splitNl cs
    else
      match splitNl cs with
      | [] => [[c]]
      | l :: ls => (c :: l) :: ls

/-- Joining pieces with a newline separator, mirroring the Python
expression that joins with a newline string. -/
def joinNl : List (List Char) → List Char
  | [] => []
  | [l] => l
  | l :: l₂ :: ls => l ++ '\n' :: joinNl (l₂ :: ls)

/-- Embedding of format_sse from src/CoreService/main.py: split the data
on newline, prefix every line with the data marker, join with newlines,
and wrap with the event header line and the blank-line terminator. -/
def format_sse (data : String) (event : String) : String :=
  let lines := splitNl data.data
  let sse_data := joinNl (lines.map (fun line => "data: ".data ++ line))
  ⟨"event: ".data ++ event.data ++ '\n' :: (sse_data ++ '\n' :: '\n' :: [])⟩

/-- Session store states of InMemoryStorage from src/CoreService/storage.py:
the underlying Python dict as an association list in insertion order. -/
abbrev Store := List (String × String)

/-- Embedding of InMemoryStorage.get_internal_id: dictionary lookup
returning none when no mapping for the external id is present. -/
def get_internal_id : Store → String → Option String
  | [], _ => none
  | (k, v) :: rest, e => if k = e then some v else get_internal_id rest e

/-- Embedding of InMemoryStorage.save_mapping: dictionary assignment,
replacing the value in place when the key is already present and
appending a new entry otherwise. -/
def save_mapping : Store → String → String → Store
  | [], e, i => [(e, i)]
  | (k, v) :: rest, e, i =>
    if k = e then (k, i) :: rest else (k, v) :: save_mapping rest e i

/-- A state-changing operation on the session store. InMemoryStorage has
one mutating operation, save_mapping; get_internal_id reads only. -/
inductive StoreOp where
  | save (e i : String)
deriving DecidableEq

/-- Runs a sequence of mutating store operations left to right. -/
def applyOps (st : Store) (ops : List StoreOp) : Store :=
  ops.foldl (fun s op => match op with | StoreOp.save e i => save_mapping s e i) st

/-- Token usage record built in generate_response, mirroring the Usage
pydantic model of src/CoreService/main.py. -/
structure Usage where
  input_tokens : Int
  output_tokens : Int
  total_tokens : Int
deriving DecidableEq

/-- Python dict .get on an optional field whose stored value may itself
be null: an absent key yields the supplied default. -/
def dictGet (field : Option (Option Int)) (dflt : Option Int) : Option Int :=
  match field with
  | none => dflt
  | some v => v

/-- Python x or d on an optional integer: None and 0 are falsy, so both
fall through to the default. -/
def pyOr (x : Option Int) (d : Int) : Int :=
  match x with
  | none => d
  | some v => if v = 0 then d else v

/-- One content item of a backend chunk: its type tag and the three
usage-detail counters, each either absent, null, or an integer. -/
structure Content where
  type : String
  input_token_count : Option (Option Int)
  output_token_count : Option (Option Int)
  total_token_count : Option (Option Int)
deriving DecidableEq

/-- The Usage record generate_response builds from the usage details of
a usage-typed content item: usage_details.get of each counter with
default 0, then the Python or 0. -/
def mkUsage (ct : Content) : Usage :=
  ⟨pyOr (dictGet ct.input_token_count (some 0)) 0,
   pyOr (dictGet ct.output_token_count (some 0)) 0,
   pyOr (dictGet ct.total_token_count (some 0)) 0⟩

/-- One chunk yielded by the backend streaming call run_stream: optional
text and a list of content items. -/
structure Chunk where
  text : Option String
  contents : List Content
deriving DecidableEq

/-- A structured stream event produced by the relay; on the wire each is
rendered as one SSE frame via format_sse. -/
inductive StreamEvent where
  | text (s : String)
  | usage (u : Usage)
  | error (msg : String)
deriving DecidableEq

/-- Whether a stream event is the error variant. -/
def isErrorEvent : StreamEvent → Bool
  | StreamEvent.error _ => true
  | _ => false

/-- Python truthiness of an optional string: None and the empty string
are falsy. -/
def pyTruthy : Option String → Bool
  | none => false
  | some s => !(s == "")

/-- Events yielded for one backend chunk by the run_stream loop of
generate_response: a truthy chunk text yields one text event, otherwise
every usage-typed content item yields a usage event. -/
def processChunk (c : Chunk) : List StreamEvent :=
  if pyTruthy c.text then [StreamEvent.text (c.text.getD "")]
  else (c.contents.filter (fun ct => ct.type == "usage")).map
    (fun ct => StreamEvent.usage (mkUsage ct))

/-- The two pre-provisioned agent identities of AIFClient. -/
inductive AgentVariant where
  | chat
  | builder
deriving DecidableEq

/-- Embedding of the calendar check of generate_response: the literal
calendar is contained in text.lower(), with Python str.lower modelled as
the character-wise Char.toLower. -/
def is_calendar_request (text : String) : Bool :=
  decide ("calendar".data <:+: text.data.map Char.toLower)

/-- Spec-side reading of the selection rule: the request text contains
the substring calendar in some casing (substring, not whole-word). -/
def containsCalendarAnyCase (text : String) : Prop :=
  ∃ m : List Char, m <:+: text.data ∧ m.map Char.toLower = "calendar".data

/-- One observed behaviour of the backend agent during a single
generate_response call: the service thread id a freshly created thread
carries once its first turn has run, the chunks the stream yields, and
an optional exception raised after those chunks (a failure before any
chunk is the case of an empty chunk list). -/
structure Backend where
  newThreadId : Option String
  chunks : List Chunk
  failure : Option String
deriving DecidableEq

/-- The observable outcome of one generate_response call: the events
yielded in order, the resulting store, which thread path the single
get_new_thread call took, the save_mapping calls made, the agent chosen
and the user text sent to run_stream. -/
structure RelayResult where
  events : List StreamEvent
  store : Store
  createdNewThread : Bool
  resumedThreadId : Option String
  saveCalls : List (String × String)
  agent : AgentVariant
  sentText : String
deriving DecidableEq

/-- Embedding of AIFClient.generate_response from src/CoreService/main.py:
choose the agent by the calendar check, look up the conversation in the
store, resume the thread when the stored id is truthy and create a fresh
one otherwise, decorate calendar requests, stream the chunks, and on
normal completion save the mapping when no truthy id was found and the
thread now carries a truthy service id; a raised failure instead yields
a single terminal error event and no save. -/
def generate_response (be : Backend) (text conversation_id : String) (st : Store) :
    RelayResult :=
  let agent := if is_calendar_request text then AgentVariant.builder else AgentVariant.chat
  let thread_id := get_internal_id st conversation_id
  let user_input :=
    if is_calendar_request text then text ++ "\n\nReturn the response in JSON format."
    else text
  let streamed := (be.chunks.map processChunk).flatten
  match be.failure with
  | some msg =>
    ⟨streamed ++ [StreamEvent.error msg], st, !(pyTruthy thread_id),
     if pyTruthy thread_id then thread_id else none, [], agent, user_input⟩
  | none =>
    let serviceId := if pyTruthy thread_id then thread_id else be.newThreadId
    if !(pyTruthy thread_id) && pyTruthy serviceId then
      ⟨streamed, save_mapping st conversation_id (serviceId.getD ""), true, none,
       [(conversation_id, serviceId.getD "")], agent, user_input⟩
    else
      ⟨streamed, st, !(pyTruthy thread_id),
       if pyTruthy thread_id then thread_id else none, [], agent, user_input⟩

/-- The HTTP-level outcome of the POST /api/v1/messages handler. -/
inductive EndpointResponse where
  | badRequest (detail : String)
  | stream (r : RelayResult)
deriving DecidableEq

/-- Embedding of the stream_messages handler: an empty conversationId is
rejected with a 400 detail message before the relay runs; otherwise the
streaming response is generate_response on the unchanged payload. -/
def stream_messages (be : Backend) (st : Store) (text conversationId : String) :
    EndpointResponse :=
  if conversationId = "" then
    EndpointResponse.badRequest "conversationId cannot be null or empty."
  else
    EndpointResponse.stream (generate_response be text conversationId st)

theorem splitNl_ne_nil (cs : List Char) : splitNl cs ≠ [] := by
  induction cs with
  | nil => simp [splitNl]
  | cons c cs ih =>
    simp only [splitNl]
    split
    · simp
    · cases h : splitNl cs <;> simp

theorem mem_splitNl_no_newline (cs : List Char) :
    ∀ l ∈ splitNl cs, '\n' ∉ l := by
  induction cs with
  | nil => intro l hl; simp [splitNl] at hl; simp [hl]
  | cons c cs ih =>
    intro l hl
    simp only [splitNl] at hl
    by_cases hc : c = '\n'
    · simp [hc] at hl
      rcases hl with h | h
      · simp [h]
      · exact ih l h
    · simp [hc] at hl
      cases hs : splitNl cs with
      | nil => exact absurd hs (splitNl_ne_nil cs)
      | cons p ps =>
        rw [hs] at hl
        simp at hl
        rcases hl with h | h
        · subst h
          intro hmem
          rcases List.mem_cons.mp hmem with h' | h'
          · exact hc h'.symm
          · exact ih p (hs ▸ List.mem_cons_self p ps) h'
        · exact ih l (hs ▸ List.mem_cons_of_mem p h)

theorem splitNl_no_newline (l : List Char) (h : '\n' ∉ l) :
    splitNl l = [l] := by
  induction l with
  | nil => simp [splitNl]
  | cons c cs ih =>
    have hc : c ≠ '\n' := fun hc => h (hc ▸ List.mem_cons_self c cs)
    have hcs : '\n' ∉ cs := fun hm => h (List.mem_cons_of_mem c hm)
    simp [splitNl, hc, ih hcs]

theorem splitNl_append_newline (l rest : List Char) (h : '\n' ∉ l) :
    splitNl (l ++ '\n' :: rest) = l :: splitNl rest := by
  induction l with
  | nil => simp [splitNl]
  | cons c cs ih =>
    have hc : c ≠ '\n' := fun hc => h (hc ▸ List.mem_cons_self c cs)
    have hcs : '\n' ∉ cs := fun hm => h (List.mem_cons_of_mem c hm)
    rw [List.cons_append]
    simp only [splitNl, hc, if_false]
    rw [ih hcs]

theorem splitNl_joinNl (ls : List (List Char)) (hne : ls ≠ [])
    (hno : ∀ l ∈ ls, '\n' ∉ l) : splitNl (joinNl ls) = ls := by
  induction ls with
  | nil => exact absurd rfl hne
  | cons l ls ih =>
    cases ls with
    | nil =>
      simp only [joinNl]
      exact splitNl_no_newline l (hno l (List.mem_cons_self l []))
    | cons l₂ ls₂ =>
      simp only [joinNl]
      rw [splitNl_append_newline l _ (hno l (List.mem_cons_self _ _))]
      congr 1
      exact ih (by simp) (fun x hx => hno x (List.mem_cons_of_mem l hx))

theorem joinNl_append (xs ys : List (List Char)) (hx : xs ≠ [])
    (hy : ys ≠ []) : joinNl (xs ++ ys) = joinNl xs ++ '\n' :: joinNl ys := by
  induction xs with
  | nil => exact absurd rfl hx
  | cons x xs ih =>
    cases xs with
    | nil =>
      cases ys with
      | nil => exact absurd rfl hy
      | cons y ys => simp [joinNl]
    | cons x₂ xs₂ =>
      have hthis := ih (by simp)
      simp only [List.cons_append] at hthis ⊢
      simp only [joinNl]
      rw [hthis]
      simp

/-- The data part of a frame produced by format_sse is the newline-join
of the event header line, the prefixed data lines, and two empty lines. -/
theorem format_sse_data (data event : String) :
    (format_sse data event).data =
      joinNl (("event: ".data ++ event.data) ::
        ((splitNl data.data).map (fun l => "data: ".data ++ l) ++ [[], []])) := by
  have hmapne : (splitNl data.data).map (fun l => "data: ".data ++ l) ≠ [] := by
    simp [splitNl_ne_nil]
  simp only [format_sse]
  rw [show (("event: ".data ++ event.data) ::
        ((splitNl data.data).map (fun l => "data: ".data ++ l) ++ [[], []])) =
      [("event: ".data ++ event.data)] ++
        ((splitNl data.data).map (fun l => "data: ".data ++ l) ++ [[], []]) from rfl]
  rw [joinNl_append _ _ (by simp) (by simp [hmapne])]
  rw [joinNl_append _ _ hmapne (by simp)]
  simp [joinNl]

theorem get_save_same (st : Store) (e i : String) :
    get_internal_id (save_mapping st e i) e = some i := by
  induction st with
  | nil => simp [save_mapping, get_internal_id]
  | cons p rest ih =>
    obtain ⟨k, v⟩ := p
    by_cases hk : k = e
    · simp [save_mapping, get_internal_id, hk]
    · simp [save_mapping, get_internal_id, hk, ih]

theorem get_save_other (st : Store) (k e i : String) (h : k ≠ e) :
    get_internal_id (save_mapping st k i) e = get_internal_id st e := by
  induction st with
  | nil => simp [save_mapping, get_internal_id, h]
  | cons p rest ih =>
    obtain ⟨k₂, v⟩ := p
    by_cases hk : k₂ = k
    · subst hk
      simp [save_mapping, get_internal_id, h]
    · simp [save_mapping, get_internal_id, hk, ih]

theorem get_applyOps_untouched (ops : List StoreOp) (st : Store) (e : String)
    (h : ∀ j, StoreOp.save e j ∉ ops) :
    get_internal_id (applyOps st ops) e = get_internal_id st e := by
  induction ops generalizing st with
  | nil => rfl
  | cons op ops ih =>
    obtain ⟨e₂, i₂⟩ := op
    have he : e₂ ≠ e := by
      intro hc
      exact h i₂ (hc ▸ List.mem_cons_self _ _)
    have hrest : ∀ j, StoreOp.save e j ∉ ops :=
      fun j hj => h j (List.mem_cons_of_mem _ hj)
    show get_internal_id (applyOps (save_mapping st e₂ i₂) ops) e = _
    rw [ih _ hrest, get_save_other st e₂ e i₂ he]

/-- C2 counterexample: save_mapping overwrites. After save_mapping has
recorded internal id x for external id a, a later save_mapping for a
makes get_internal_id return the newer id y instead of x, so the claimed
invariant over every operation sequence fails on this concrete trace. -/
theorem save_mapping_overwrite_cex :
    get_internal_id (save_mapping ([] : Store) "a" "x") "a" = some "x" ∧
    get_internal_id
      (applyOps (save_mapping ([] : Store) "a" "x") [StoreOp.save "a" "y"]) "a" =
      some "y" ∧
    (some "y" : Option String) ≠ some "x" := by
  refine ⟨rfl, rfl, ?_⟩
  decide

/-- C2 (amended): once save_mapping has recorded an internal id for an
external id, every later lookup of that id returns it, provided no later
save_mapping call targets the same external id; a later save for the
same id instead wins (dictionary assignment is last-write-wins). -/
theorem session_store_mapping_stable (st : Store) (e i : String)
    (ops : List StoreOp) (h : ∀ j, StoreOp.save e j ∉ ops) :
    get_internal_id (applyOps (save_mapping st e i) ops) e = some i := by
  rw [get_applyOps_untouched ops _ e h, get_save_same]

/-- Witness for the amended C2 at a concrete trace: after recording a to
x, running a save for a different external id b leaves the lookup of a
returning x. -/
theorem session_store_mapping_stable_witness :
    get_internal_id
      (applyOps (save_mapping ([] : Store) "a" "x") [StoreOp.save "b" "y"]) "a" =
      some "x" := by
  apply session_store_mapping_stable [] "a" "x" [StoreOp.save "b" "y"]
  intro j hj
  rw [List.mem_singleton] at hj
  injection hj with h1 h2
  exact absurd h1 (by decide)

/-- C1: format_sse satisfies the byte-for-byte framing law on the
two-line example, and in general the frame splits on newline into the
event header line, one data-prefixed line per line of the payload
(including empty ones), and the two empty lines of the blank-line
terminator. -/
theorem format_sse_framing :
    format_sse "line1\nline2" "text" = "event: text\ndata: line1\ndata: line2\n\n" ∧
    ∀ data event : String, '\n' ∉ event.data →
      splitNl (format_sse data event).data =
        ("event: " ++ event).data ::
          ((splitNl data.data).map (fun l => "data: ".data ++ l) ++ [[], []]) := by
  constructor
  · rfl
  · intro data event hev
    rw [format_sse_data, String.data_append]
    apply splitNl_joinNl _ (by simp)
    intro l hl
    rcases List.mem_cons.mp hl with h | h
    · subst h
      intro hmem
      rcases List.mem_append.mp hmem with h' | h'
      · exact absurd h' (by decide)
      · exact hev h'
    · rcases List.mem_append.mp h with h' | h'
      · rcases List.mem_map.mp h' with ⟨p, hp, hpe⟩
        subst hpe
        intro hmem
        rcases List.mem_append.mp hmem with hma | hmb
        · exact absurd hma (by decide)
        · exact mem_splitNl_no_newline data.data p hp hmb
      · have hlnil : l = [] := by
          rcases List.mem_cons.mp h' with h2 | h2
          · exact h2
          · exact List.mem_singleton.mp h2
        simp [hlnil]

/-- Witness for C1 at a concrete payload with an embedded empty line. -/
theorem format_sse_framing_witness :
    splitNl (format_sse "a\n\nb" "text").data =
      ("event: " ++ "text").data ::
        ((splitNl ("a\n\nb" : String).data).map (fun l => "data: ".data ++ l) ++
          [[], []]) :=
  format_sse_framing.2 "a\n\nb" "text" (by decide)

/-- C9: the empty payload still produces one data line, because
splitting the empty string yields a single empty line, and the frame is
exactly the event header, one bare data marker line, and the blank-line
terminator. -/
theorem format_sse_empty_payload :
    format_sse "" "text" = "event: text\ndata: \n\n" ∧
    splitNl ("" : String).data = [[]] :=
  ⟨rfl, rfl⟩

theorem processChunk_no_error (c : Chunk) :
    ∀ ev ∈ processChunk c, isErrorEvent ev = false := by
  intro ev hev
  unfold processChunk at hev
  split at hev
  · rw [List.mem_singleton] at hev
    subst hev
    rfl
  · rcases List.mem_map.mp hev with ⟨ct, hct, hee⟩
    subst hee
    rfl

theorem streamed_no_error (chunks : List Chunk) :
    ((chunks.map processChunk).flatten).filter isErrorEvent = [] := by
  rw [List.filter_eq_nil_iff]
  intro a ha
  rcases List.mem_flatten.mp ha with ⟨l, hl, hal⟩
  rcases List.mem_map.mp hl with ⟨c, hc, hle⟩
  subst hle
  simp [processChunk_no_error c a hal]

/-- C3: when the backend raises during a generate_response call, the
event sequence ends with a single error event carrying the failure
message, that error is the last event produced, and the session store is
left untouched: no save_mapping call is made even though a thread may
have been created before the failure. -/
theorem relay_failure_terminal (be : Backend) (text cid msg : String) (st : Store)
    (h : be.failure = some msg) :
    (generate_response be text cid st).events.filter isErrorEvent =
      [StreamEvent.error msg] ∧
    (generate_response be text cid st).events.getLast? =
      some (StreamEvent.error msg) ∧
    (generate_response be text cid st).store = st ∧
    (generate_response be text cid st).saveCalls = [] := by
  unfold generate_response
  rw [h]
  dsimp only
  refine ⟨?_, ?_, rfl, rfl⟩
  · rw [List.filter_append, streamed_no_error]
    rfl
  · rw [List.getLast?_concat]

/-- Witness for C3 at a concrete backend that yields one text chunk and
then raises with the message boom. -/
theorem relay_failure_terminal_witness :
    (generate_response ⟨some "T1", [⟨some "hi", []⟩], some "boom"⟩
        "hello" "c1" []).events.filter isErrorEvent = [StreamEvent.error "boom"] ∧
    (generate_response ⟨some "T1", [⟨some "hi", []⟩], some "boom"⟩
        "hello" "c1" []).events.getLast? = some (StreamEvent.error "boom") ∧
    (generate_response ⟨some "T1", [⟨some "hi", []⟩], some "boom"⟩
        "hello" "c1" []).store = [] ∧
    (generate_response ⟨some "T1", [⟨some "hi", []⟩], some "boom"⟩
        "hello" "c1" []).saveCalls = [] :=
  relay_failure_terminal ⟨some "T1", [⟨some "hi", []⟩], some "boom"⟩
    "hello" "c1" "boom" [] rfl

/-- C4: for a non-empty conversation id with no existing mapping, a
successful relay call (the backend raises nothing and populates a
non-empty thread id on the freshly created thread) saves exactly one
mapping, after the stream, the thread-creation path is taken exactly
once, no thread is resumed, and the store afterwards maps the id to the
new thread id. -/
theorem relay_new_conversation (be : Backend) (text cid t : String) (st : Store)
    (hcid : cid ≠ "") (hnone : get_internal_id st cid = none)
    (hok : be.failure = none) (hnew : be.newThreadId = some t) (ht : t ≠ "") :
    (generate_response be text cid st).saveCalls = [(cid, t)] ∧
    (generate_response be text cid st).store = save_mapping st cid t ∧
    get_internal_id (generate_response be text cid st).store cid = some t ∧
    (generate_response be text cid st).createdNewThread = true ∧
    (generate_response be text cid st).resumedThreadId = none ∧
    (generate_response be text cid st).events.filter isErrorEvent = [] := by
  have hbt : (t == "") = false := beq_eq_false_iff_ne.mpr ht
  refine ⟨?_, ?_, ?_, ?_, ?_, ?_⟩ <;>
    simp [generate_response, hok, hnone, hnew, pyTruthy, hbt, get_save_same,
      streamed_no_error] <;>
    exact fun a _ ev hev => processChunk_no_error a ev hev

/-- Witness for C4 on the empty store with a backend that completes and
assigns thread id T1. -/
theorem relay_new_conversation_witness :
    (generate_response ⟨some "T1", [⟨some "hi", []⟩], none⟩ "hello" "c1" []).saveCalls =
      [("c1", "T1")] ∧
    (generate_response ⟨some "T1", [⟨some "hi", []⟩], none⟩ "hello" "c1" []).store =
      save_mapping [] "c1" "T1" ∧
    get_internal_id
      (generate_response ⟨some "T1", [⟨some "hi", []⟩], none⟩ "hello" "c1" []).store
      "c1" = some "T1" ∧
    (generate_response ⟨some "T1", [⟨some "hi", []⟩], none⟩
      "hello" "c1" []).createdNewThread = true ∧
    (generate_response ⟨some "T1", [⟨some "hi", []⟩], none⟩
      "hello" "c1" []).resumedThreadId = none ∧
    (generate_response ⟨some "T1", [⟨some "hi", []⟩], none⟩
      "hello" "c1" []).events.filter isErrorEvent = [] :=
  relay_new_conversation ⟨some "T1", [⟨some "hi", []⟩], none⟩ "hello" "c1" "T1" []
    (by decide) rfl rfl rfl (by decide)

/-- C5 counterexample: an existing mapping whose stored internal id is
the empty string is treated as absent by the truthiness test of
generate_response, so the relay does not resume it and the store is not
left unchanged: a fresh thread is created and the mapping is overwritten
with the new thread id. -/
theorem relay_existing_mapping_cex :
    get_internal_id [("c1", "")] "c1" = some "" ∧
    (generate_response ⟨some "T9", [], none⟩ "hello" "c1"
      [("c1", "")]).resumedThreadId = none ∧
    (generate_response ⟨some "T9", [], none⟩ "hello" "c1"
      [("c1", "")]).createdNewThread = true ∧
    (generate_response ⟨some "T9", [], none⟩ "hello" "c1"
      [("c1", "")]).store = [("c1", "T9")] ∧
    (("c1", "T9") : String × String) ≠ ("c1", "") := by
  refine ⟨rfl, ?_, ?_, ?_, by decide⟩ <;> decide

/-- C5 (amended): for every conversation id whose existing mapping has a
non-empty internal id (the only kind the relay itself ever stores, since
it saves only truthy thread ids), the relay call resumes the backend
thread with the stored id, creates no fresh thread, and leaves the
session store unchanged with no save_mapping call, whether or not the
stream fails. -/
theorem relay_existing_conversation (be : Backend) (text cid tid : String)
    (st : Store) (h : get_internal_id st cid = some tid) (hne : tid ≠ "") :
    (generate_response be text cid st).resumedThreadId = some tid ∧
    (generate_response be text cid st).createdNewThread = false ∧
    (generate_response be text cid st).store = st ∧
    (generate_response be text cid st).saveCalls = [] := by
  have hbt : (tid == "") = false := beq_eq_false_iff_ne.mpr hne
  cases hf : be.failure with
  | some msg =>
    refine ⟨?_, ?_, ?_, ?_⟩ <;> simp [generate_response, h, hf, pyTruthy, hbt]
  | none =>
    refine ⟨?_, ?_, ?_, ?_⟩ <;> simp [generate_response, h, hf, pyTruthy, hbt]

/-- Witness for the amended C5 at a store already mapping c1 to T1. -/
theorem relay_existing_conversation_witness :
    (generate_response ⟨some "T9", [⟨some "hi", []⟩], none⟩ "hello" "c1"
      [("c1", "T1")]).resumedThreadId = some "T1" ∧
    (generate_response ⟨some "T9", [⟨some "hi", []⟩], none⟩ "hello" "c1"
      [("c1", "T1")]).createdNewThread = false ∧
    (generate_response ⟨some "T9", [⟨some "hi", []⟩], none⟩ "hello" "c1"
      [("c1", "T1")]).store = [("c1", "T1")] ∧
    (generate_response ⟨some "T9", [⟨some "hi", []⟩], none⟩ "hello" "c1"
      [("c1", "T1")]).saveCalls = [] :=
  relay_existing_conversation ⟨some "T9", [⟨some "hi", []⟩], none⟩ "hello" "c1"
    "T1" [("c1", "T1")] rfl (by decide)

/-- C6: a request whose conversationId is the empty string is answered
with the 400 detail message and never reaches generate_response: the
endpoint result carries no relay outcome at all. -/
theorem empty_conversation_id_rejected (be : Backend) (st : Store) (text : String) :
    stream_messages be st text "" =
      EndpointResponse.badRequest "conversationId cannot be null or empty." ∧
    ∀ r : RelayResult, stream_messages be st text "" ≠ EndpointResponse.stream r := by
  refine ⟨rfl, ?_⟩
  intro r h
  exact EndpointResponse.noConfusion h

/-- Witness for C6 at a concrete backend, store and text. -/
theorem empty_conversation_id_rejected_witness :
    stream_messages ⟨some "T1", [], none⟩ [] "hello" "" =
      EndpointResponse.badRequest "conversationId cannot be null or empty." :=
  (empty_conversation_id_rejected ⟨some "T1", [], none⟩ [] "hello").1

/-- C10: every non-empty conversationId, whitespace-only ones included,
passes validation and the endpoint streams generate_response on the id
unchanged, with no trimming or further shape check. -/
theorem nonempty_conversation_id_passes (be : Backend) (st : Store)
    (text cid : String) (h : cid ≠ "") :
    stream_messages be st text cid =
      EndpointResponse.stream (generate_response be text cid st) := by
  unfold stream_messages
  rw [if_neg h]

/-- Witness for C10 at the single-space conversation id. -/
theorem nonempty_conversation_id_passes_witness :
    stream_messages ⟨some "T1", [], none⟩ [] "hello" " " =
      EndpointResponse.stream
        (generate_response ⟨some "T1", [], none⟩ "hello" " " []) :=
  nonempty_conversation_id_passes ⟨some "T1", [], none⟩ [] "hello" " " (by decide)

theorem generate_response_fields (be : Backend) (text cid : String) (st : Store) :
    (generate_response be text cid st).agent =
      (if is_calendar_request text then AgentVariant.builder else AgentVariant.chat) ∧
    (generate_response be text cid st).sentText =
      (if is_calendar_request text then
        text ++ "\n\nReturn the response in JSON format." else text) := by
  cases hf : be.failure with
  | some msg => constructor <;> simp [generate_response, hf]
  | none =>
    constructor <;> (simp only [generate_response, hf]; split <;> split <;> rfl)

theorem is_calendar_request_iff (text : String) :
    is_calendar_request text = true ↔ containsCalendarAnyCase text := by
  unfold is_calendar_request containsCalendarAnyCase
  rw [decide_eq_true_eq, List.isInfix_map_iff]
  constructor
  · rintro ⟨l, hl, he⟩
    exact ⟨l, hl, he.symm⟩
  · rintro ⟨l, hl, he⟩
    exact ⟨l, hl, he.symm⟩

/-- C7: agent-variant selection is a pure function of the request text.
The builder variant is selected exactly when the text contains the
substring calendar in some casing (substring match, not whole-word), in
which case the JSON-format instruction is appended to the user text; any
other text selects the conversational variant and is passed unmodified. -/
theorem agent_selection (be : Backend) (st : Store) (text cid : String) :
    ((generate_response be text cid st).agent = AgentVariant.builder ↔
      containsCalendarAnyCase text) ∧
    (containsCalendarAnyCase text →
      (generate_response be text cid st).sentText =
        text ++ "\n\nReturn the response in JSON format.") ∧
    (¬ containsCalendarAnyCase text →
      (generate_response be text cid st).sentText = text) := by
  obtain ⟨ha, hs⟩ := generate_response_fields be text cid st
  cases hc : is_calendar_request text with
  | true =>
    have hcal := (is_calendar_request_iff text).mp hc
    have ha2 : (generate_response be text cid st).agent = AgentVariant.builder := by
      rw [ha, if_pos hc]
    have hs2 : (generate_response be text cid st).sentText =
        text ++ "\n\nReturn the response in JSON format." := by
      rw [hs, if_pos hc]
    exact ⟨⟨fun _ => hcal, fun _ => ha2⟩, fun _ => hs2, fun hn => absurd hcal hn⟩
  | false =>
    have hncal : ¬ containsCalendarAnyCase text := fun hcal =>
      Bool.noConfusion (hc.symm.trans ((is_calendar_request_iff text).mpr hcal))
    have hcp : ¬ (is_calendar_request text = true) := by
      rw [hc]
      exact fun hh => Bool.noConfusion hh
    have ha2 : (generate_response be text cid st).agent = AgentVariant.chat := by
      rw [ha, if_neg hcp]
    have hs2 : (generate_response be text cid st).sentText = text := by
      rw [hs, if_neg hcp]
    refine ⟨⟨fun hb => ?_, fun hcal => absurd hcal hncal⟩,
      fun hcal => absurd hcal hncal, fun _ => hs2⟩
    rw [ha2] at hb
    exact AgentVariant.noConfusion hb

/-- Witness for C7: a text containing CALENDARium selects the builder
variant, matching as a substring and across casing, and the JSON
instruction is appended. -/
theorem agent_selection_witness :
    (generate_response ⟨some "T1", [], none⟩ "my CALENDARium" "c1" []).agent =
      AgentVariant.builder ∧
    (generate_response ⟨some "T1", [], none⟩ "my CALENDARium" "c1" []).sentText =
      "my CALENDARium" ++ "\n\nReturn the response in JSON format." := by
  have hcal : containsCalendarAnyCase "my CALENDARium" :=
    ⟨"CALENDAR".data, by decide, by decide⟩
  exact ⟨(agent_selection ⟨some "T1", [], none⟩ [] "my CALENDARium" "c1").1.mpr hcal,
    (agent_selection ⟨some "T1", [], none⟩ [] "my CALENDARium" "c1").2.1 hcal⟩

/-- C8: each usage count defaults to 0 when the corresponding
usage-detail field is absent or null, a present integer total is passed
through, and a usage-typed content item makes the run_stream loop emit
exactly the usage event built by mkUsage; in particular input absent,
output null and total 5 yield the counts 0, 0 and 5. -/
theorem usage_defaults (ct : Content) :
    ((ct.input_token_count = none ∨ ct.input_token_count = some none) →
      (mkUsage ct).input_tokens = 0) ∧
    ((ct.output_token_count = none ∨ ct.output_token_count = some none) →
      (mkUsage ct).output_tokens = 0) ∧
    ((ct.total_token_count = none ∨ ct.total_token_count = some none) →
      (mkUsage ct).total_tokens = 0) ∧
    (∀ n : Int, ct.total_token_count = some (some n) →
      (mkUsage ct).total_tokens = n) ∧
    (ct.type = "usage" →
      processChunk ⟨none, [ct]⟩ = [StreamEvent.usage (mkUsage ct)]) := by
  refine ⟨?_, ?_, ?_, ?_, ?_⟩
  · rintro (h | h) <;> simp [mkUsage, dictGet, pyOr, h]
  · rintro (h | h) <;> simp [mkUsage, dictGet, pyOr, h]
  · rintro (h | h) <;> simp [mkUsage, dictGet, pyOr, h]
  · intro n h
    by_cases hn : n = 0 <;> simp [mkUsage, dictGet, pyOr, h, hn]
  · intro h
    simp [processChunk, pyTruthy, h]

/-- Witness for C8 at the payload with input absent, output null and
total 5. -/
theorem usage_defaults_witness :
    (mkUsage ⟨"usage", none, some none, some (some 5)⟩).input_tokens = 0 ∧
    (mkUsage ⟨"usage", none, some none, some (some 5)⟩).output_tokens = 0 ∧
    (mkUsage ⟨"usage", none, some none, some (some 5)⟩).total_tokens = 5 ∧
    processChunk ⟨none, [⟨"usage", none, some none, some (some 5)⟩]⟩ =
      [StreamEvent.usage (mkUsage ⟨"usage", none, some none, some (some 5)⟩)] :=
  ⟨(usage_defaults ⟨"usage", none, some none, some (some 5)⟩).1 (Or.inl rfl),
   (usage_defaults ⟨"usage", none, some none, some (some 5)⟩).2.1 (Or.inr rfl),
   (usage_defaults ⟨"usage", none, some none, some (some 5)⟩).2.2.2.1 5 rfl,
   (usage_defaults ⟨"usage", none, some none, some (some 5)⟩).2.2.2.2 rfl⟩
